import Mathlib

/-!
Verification of the Expense-Tracker backend (expense_budget_app).

The development shallowly embeds the data model and the service-layer logic of
the repository: expense categories, users, expenses, the pydantic filter schema
with its field validators, the filter resolution in
`ExpenseService.get_user_expenses`, update/delete with ownership checks, the
budget aggregation of `ExpenseService.get_budget_summary`, and
`UserService.authenticate_user`.

Python `datetime` values are modelled as microseconds since the proleptic
Gregorian day 0001-01-01 00:00:00 (the ordinal arithmetic `datetime` itself
uses); Python floats are modelled as rationals; `Optional` values as `Option`;
raised `HTTPException`s as `Except` errors.
-/

namespace ExpenseTracker

/-- The five fixed expense categories (`ExpenseCategory` enum in
`models/expense.py`). -/
inductive ExpenseCategory where
  | FOOD
  | TRANSPORT
  | ENTERTAINMENT
  | UTILITIES
  | OTHER
deriving DecidableEq, Repr

/-- A calendar date, as carried by the `day` filter field (`datetime.date`). -/
structure Date where
  year : Nat
  month : Nat
  day : Nat
deriving DecidableEq, Repr

/-- Gregorian leap-year test, after `calendar.isleap` as used by `datetime`. -/
def isLeap (y : Nat) : Bool :=
  (y % 4 == 0 && y % 100 != 0) || y % 400 == 0

/-- Days in the months preceding month `m` of year `y` (the `_days_before_month`
table of CPython `datetime`). -/
def daysBeforeMonth (y m : Nat) : Nat :=
  let base := [0, 31, 59, 90, 120, 151, 181, 212, 243, 273, 304, 334].getD (m - 1) 0
  if 2 < m ∧ isLeap y then base + 1 else base

/-- Days from 0001-01-01 to the given civil date (CPython `date.toordinal`
minus one), valid for years ≥ 1 as `datetime` requires. -/
def daysSinceEpoch (y m d : Nat) : Nat :=
  let py := y - 1
  py * 365 + py / 4 - py / 100 + py / 400 + daysBeforeMonth y m + (d - 1)

/-- Microseconds in one day. -/
def dayMicros : Nat := 86400000000

/-- A `datetime(y, m, d, h, mi, s, us)` value as microseconds since the epoch. -/
def tsMicros (y m d h mi s us : Nat) : Nat :=
  (daysSinceEpoch y m d * 86400 + h * 3600 + mi * 60 + s) * 1000000 + us

/-- The `users` table row (`models/user.py`). -/
structure User where
  user_id : Nat
  username : String
  email : Option String
  hashed_password : Option String
  salary : ℚ
  is_active : Bool
  created_at : Nat
deriving DecidableEq, Repr

/-- The `expenses` table row (`models/expense.py`). -/
structure Expense where
  expense_id : Nat
  user_id : Nat
  name : String
  amount : ℚ
  category : ExpenseCategory
  created_at : Nat
deriving DecidableEq, Repr

/-- The persistent state visible to the services: the two tables. -/
structure DB where
  users : List User
  expenses : List Expense
deriving DecidableEq, Repr

/-- The error outcomes raised by the service layer (`HTTPException` with 404
resp. 403). -/
inductive ServiceError where
  | notFound
  | forbidden
deriving DecidableEq, Repr

/-- The `ExpenseFilter` pydantic schema (`schemas/expense.py`): all fields
optional. -/
structure ExpenseFilter where
  day : Option Date := none
  week : Option Nat := none
  month : Option Nat := none
  year : Option Nat := none
  category : Option ExpenseCategory := none
deriving DecidableEq, Repr

/-- The `info.data` dictionary seen by a pydantic field validator: it holds
only the fields already validated, i.e. the fields declared BEFORE the one
being validated (declaration order in `ExpenseFilter` is day, week, month,
year, category). A field not yet validated is absent, which `.get` reports as
`None`; we model absence by `none`. -/
structure FilterData where
  day : Option Date := none
  week : Option Nat := none
  month : Option Nat := none
  year : Option Nat := none
deriving DecidableEq, Repr

/-- A pydantic `Field(ge=lo, le=hi)` range constraint on an optional integer
field: `None` passes, an integer outside `[lo, hi]` is a validation error. -/
def checkRange (v : Option Nat) (lo hi : Nat) (msg : String) :
    Except String (Option Nat) :=
  match v with
  | none => .ok none
  | some n => if lo ≤ n ∧ n ≤ hi then .ok (some n) else .error msg

/-- `ExpenseFilter.validate_week_requires_year`: rejects a set `week` whenever
the year entry of `info.data` is `None`. -/
def validateWeekRequiresYear (v : Option Nat) (data : FilterData) :
    Except String (Option Nat) :=
  match v with
  | none => .ok none
  | some w =>
    if data.year = none then .error "Year is required when filtering by week"
    else .ok (some w)

/-- `ExpenseFilter.validate_month_requires_year`: rejects a set `month`
whenever the year entry of `info.data` is `None`. -/
def validateMonthRequiresYear (v : Option Nat) (data : FilterData) :
    Except String (Option Nat) :=
  match v with
  | none => .ok none
  | some m =>
    if data.year = none then .error "Year is required when filtering by month"
    else .ok (some m)

/-- Pydantic validation of an `ExpenseFilter` input. Fields are validated in
declaration order (day, week, month, year, category); for each field the range
constraint runs, then its `field_validator`, and only then is the field added
to `info.data`. Since `year` is declared after both `week` and `month`, the
data passed to the week and month validators never contains `year`. -/
def ExpenseFilter.validate (f : ExpenseFilter) : Except String ExpenseFilter :=
  let d1 : FilterData := { day := f.day }
  match checkRange f.week 1 53 "week must be between 1 and 53" with
  | .error e => .error e
  | .ok w =>
    match validateWeekRequiresYear w d1 with
    | .error e => .error e
    | .ok w =>
      let d2 : FilterData := { d1 with week := w }
      match checkRange f.month 1 12 "month must be between 1 and 12" with
      | .error e => .error e
      | .ok m =>
        match validateMonthRequiresYear m d2 with
        | .error e => .error e
        | .ok m =>
          match checkRange f.year 2000 2100 "year must be between 2000 and 2100" with
          | .error e => .error e
          | .ok y =>
            .ok { day := f.day, week := w, month := m, year := y,
                  category := f.category }

/-- Python truthiness of an optional integer, as in
`if filters.week and filters.year:`: `None` and `0` are falsy. -/
def natTruthy : Option Nat → Option Nat
  | none => none
  | some n => if n = 0 then none else some n

/-- Day range test: `datetime.combine(day, datetime.min.time())` to
`datetime.combine(day, datetime.max.time())`, both inclusive. -/
def inDayRange (d : Date) (t : Nat) : Bool :=
  decide (tsMicros d.year d.month d.day 0 0 0 0 ≤ t ∧
    t ≤ tsMicros d.year d.month d.day 23 59 59 999999)

/-- Start of week `w` of year `y`: `datetime(year, 1, 1) +
timedelta(weeks=week - 1)`. -/
def weekStartTs (y w : Nat) : Nat :=
  tsMicros y 1 1 0 0 0 0 + (w - 1) * 7 * dayMicros

/-- End of week `w` of year `y`: start `+ timedelta(days=6, hours=23,
minutes=59, seconds=59)`. -/
def weekEndTs (y w : Nat) : Nat :=
  weekStartTs y w + (6 * 86400 + 23 * 3600 + 59 * 60 + 59) * 1000000

/-- Week range test of the week branch of the service. -/
def inWeekRange (y w : Nat) (t : Nat) : Bool :=
  decide (weekStartTs y w ≤ t ∧ t ≤ weekEndTs y w)

/-- Start of month `m` of year `y`: `datetime(year, month, 1)`. -/
def monthStartTs (y m : Nat) : Nat :=
  tsMicros y m 1 0 0 0 0

/-- End of month `m` of year `y`: first day of the next month minus
`timedelta(seconds=1)` (December rolls to January of the next year). -/
def monthEndTs (y m : Nat) : Nat :=
  if m = 12 then tsMicros (y + 1) 1 1 0 0 0 0 - 1000000
  else tsMicros y (m + 1) 1 0 0 0 0 - 1000000

/-- Month range test of the month branch of the service. -/
def inMonthRange (y m : Nat) (t : Nat) : Bool :=
  decide (monthStartTs y m ≤ t ∧ t ≤ monthEndTs y m)

/-- The range conditions appended to `conditions` in
`ExpenseService.get_user_expenses`: `if filters.day: … elif filters.week and
filters.year: … elif filters.month and filters.year: …` — at most one range
condition, day first, then week, then month. -/
def rangeConditions (f : ExpenseFilter) : List (Expense → Bool) :=
  match f.day with
  | some d => [fun e => inDayRange d e.created_at]
  | none =>
    match natTruthy f.week, natTruthy f.year with
    | some w, some y => [fun e => inWeekRange y w e.created_at]
    | _, _ =>
      match natTruthy f.month, natTruthy f.year with
      | some m, some y => [fun e => inMonthRange y m e.created_at]
      | _, _ => []

/-- The category condition appended after the range branch:
`if filters.category: conditions.append(Expense.category == filters.category)`. -/
def categoryConditions (f : ExpenseFilter) : List (Expense → Bool) :=
  match f.category with
  | some c => [fun e => decide (e.category = c)]
  | none => []

/-- The full `conditions` list of `get_user_expenses`. -/
def filterConditions (f : ExpenseFilter) : List (Expense → Bool) :=
  rangeConditions f ++ categoryConditions f

/-- `and_(*conditions)` applied to one expense row. -/
def matchesFilter (f : ExpenseFilter) (e : Expense) : Bool :=
  (filterConditions f).all (fun c => c e)

/-- The `ORDER BY created_at DESC` ordering on expense rows. -/
def createdDesc (a b : Expense) : Prop :=
  b.created_at ≤ a.created_at

instance : DecidableRel createdDesc :=
  fun a b => Nat.decLe b.created_at a.created_at

instance : IsTotal Expense createdDesc :=
  ⟨fun a b => Nat.le_total b.created_at a.created_at⟩

instance : IsTrans Expense createdDesc :=
  ⟨fun _ _ _ h1 h2 => Nat.le_trans h2 h1⟩

/-- `ExpenseService.verify_user_exists`: 404 when no user row has the id. -/
def verifyUserExists (db : DB) (uid : Nat) : Except ServiceError User :=
  match db.users.find? (fun u => u.user_id == uid) with
  | none => .error .notFound
  | some u => .ok u

/-- `ExpenseService.get_user_expenses`: verify the user, select the expenses of the user, apply the filter conditions, and order by `created_at` descending. -/
def getUserExpenses (db : DB) (uid : Nat) (filters : Option ExpenseFilter) :
    Except ServiceError (List Expense) :=
  match verifyUserExists db uid with
  | .error e => .error e
  | .ok _ =>
    let base := db.expenses.filter (fun e => e.user_id == uid)
    let filtered :=
      match filters with
      | none => base
      | some f => base.filter (matchesFilter f)
    .ok (List.insertionSort createdDesc filtered)

/-- The `ExpenseUpdate` pydantic schema: each field optional; an absent field
is left out of `model_dump(exclude_unset=True)` and therefore not touched. -/
structure ExpenseUpdate where
  name : Option String := none
  amount : Option ℚ := none
  category : Option ExpenseCategory := none
deriving DecidableEq, Repr

/-- The `setattr` loop of `update_expense`: each field present in the dump
overwrites that field of the row; absent fields keep their value. `ExpenseUpdate`
carries no `user_id` or `created_at`, so those never change. -/
def applyUpdate (e : Expense) (u : ExpenseUpdate) : Expense :=
  { e with
    name := u.name.getD e.name
    amount := u.amount.getD e.amount
    category := u.category.getD e.category }

/-- The authorization test `if user_id and db_expense.user_id != user_id:` of
`update_expense` / `delete_expense`; Python truthiness makes `None` (and `0`)
skip the check. -/
def authMismatch (ownerId : Nat) : Option Nat → Bool
  | none => false
  | some uid => decide (uid ≠ 0) && decide (ownerId ≠ uid)

/-- `ExpenseService.get_expense_by_id`: first row with the id, if any. -/
def findExpense (db : DB) (eid : Nat) : Option Expense :=
  db.expenses.find? (fun e => e.expense_id == eid)

/-- Replace the first row satisfying the test, as the in-place `setattr` +
commit mutates the single fetched row. -/
def replaceFirst (p : Expense → Bool) (e2 : Expense) :
    List Expense → List Expense
  | [] => []
  | e :: es => if p e then e2 :: es else e :: replaceFirst p e2 es

/-- `ExpenseService.update_expense`: 404 when the expense is absent, 403 when
an acting user id is supplied, truthy and not the owner; otherwise the dumped
fields are written onto the row. Returns the outcome with the resulting
database state. -/
def updateExpense (db : DB) (eid : Nat) (u : ExpenseUpdate)
    (uid : Option Nat) : Except ServiceError Expense × DB :=
  match findExpense db eid with
  | none => (.error .notFound, db)
  | some e =>
    if authMismatch e.user_id uid then (.error .forbidden, db)
    else
      let e2 := applyUpdate e u
      (.ok e2,
       { db with expenses := replaceFirst (fun x => x.expense_id == eid) e2 db.expenses })

/-- `ExpenseService.delete_expense`: same existence and authorization checks,
then the fetched row is deleted. -/
def deleteExpense (db : DB) (eid : Nat) (uid : Option Nat) :
    Except ServiceError Bool × DB :=
  match findExpense db eid with
  | none => (.error .notFound, db)
  | some e =>
    if authMismatch e.user_id uid then (.error .forbidden, db)
    else
      (.ok true,
       { db with expenses := db.expenses.eraseP (fun x => x.expense_id == eid) })

/-- Floor of a rational computed from its numerator and denominator; `Int`
division by the positive denominator rounds toward negative infinity. -/
def ratFloor (q : ℚ) : ℤ :=
  q.num / (q.den : ℤ)

/-- Round-half-to-even rounding of a rational to the nearest integer (Python `round`
rounds half to even). -/
def roundHalfEven (q : ℚ) : ℤ :=
  let n := ratFloor q
  let frac := q - n
  if frac < 1 / 2 then n
  else if 1 / 2 < frac then n + 1
  else if n % 2 = 0 then n else n + 1

/-- Python `round(x, 2)`. -/
def round2 (q : ℚ) : ℚ :=
  (roundHalfEven (q * 100) : ℚ) / 100

/-- `sum(expense.amount for expense in expenses)`: a left fold from 0. -/
def totalExpense (es : List Expense) : ℚ :=
  es.foldl (fun acc e => acc + e.amount) 0

/-- The `CategoryBreakdown` response schema: one rational per fixed category. -/
structure CategoryBreakdown where
  Food : ℚ
  Transport : ℚ
  Entertainment : ℚ
  Utilities : ℚ
  Other : ℚ
deriving DecidableEq, Repr

/-- The initial `category_totals` dictionary: every category at 0.0. -/
def emptyBreakdown : CategoryBreakdown :=
  ⟨0, 0, 0, 0, 0⟩

/-- One step of the loop `category_totals[expense.category.value] +=
expense.amount`. -/
def addToBreakdown (b : CategoryBreakdown) (e : Expense) : CategoryBreakdown :=
  match e.category with
  | .FOOD => { b with Food := b.Food + e.amount }
  | .TRANSPORT => { b with Transport := b.Transport + e.amount }
  | .ENTERTAINMENT => { b with Entertainment := b.Entertainment + e.amount }
  | .UTILITIES => { b with Utilities := b.Utilities + e.amount }
  | .OTHER => { b with Other := b.Other + e.amount }

/-- The full category-totals loop over the filtered expenses. -/
def categoryTotals (es : List Expense) : CategoryBreakdown :=
  es.foldl addToBreakdown emptyBreakdown

/-- Look up the bucket of one category. -/
def CategoryBreakdown.get (b : CategoryBreakdown) : ExpenseCategory → ℚ
  | .FOOD => b.Food
  | .TRANSPORT => b.Transport
  | .ENTERTAINMENT => b.Entertainment
  | .UTILITIES => b.Utilities
  | .OTHER => b.Other

/-- Sum of the five breakdown buckets. -/
def bSum (b : CategoryBreakdown) : ℚ :=
  b.Food + b.Transport + b.Entertainment + b.Utilities + b.Other

/-- The `BudgetSummary` response schema. -/
structure BudgetSummary where
  user_id : Nat
  total_salary : ℚ
  total_expense : ℚ
  remaining_amount : ℚ
  category_breakdown : CategoryBreakdown
deriving DecidableEq, Repr

/-- The aggregation tail of `get_budget_summary`: unrounded total, remaining
computed from the unrounded total, only the two reported amounts rounded to 2
decimals, category sums left unrounded. -/
def budgetAggregate (uid : Nat) (salary : ℚ) (es : List Expense) :
    BudgetSummary :=
  { user_id := uid
    total_salary := salary
    total_expense := round2 (totalExpense es)
    remaining_amount := round2 (salary - totalExpense es)
    category_breakdown := categoryTotals es }

/-- `ExpenseService.get_budget_summary`: verify the user, fetch the filtered
expenses, aggregate. -/
def getBudgetSummary (db : DB) (uid : Nat) (filters : Option ExpenseFilter) :
    Except ServiceError BudgetSummary :=
  match verifyUserExists db uid with
  | .error e => .error e
  | .ok user =>
    match getUserExpenses db uid filters with
    | .error e => .error e
    | .ok expenses => .ok (budgetAggregate uid user.salary expenses)

/-- `UserService.get_user_by_username`: first row with the username
(usernames are unique). -/
def getUserByUsername (users : List User) (un : String) : Option User :=
  users.find? (fun u => u.username == un)

/-- Python truthiness of `user.hashed_password` in
`if not user.hashed_password:`: `None` and the empty string count as no
stored credential. -/
def hasStoredCredential : Option String → Bool
  | none => false
  | some h => decide (h ≠ "")

/-- `UserService.authenticate_user`: look up by username; `None` when the user
is absent, has no stored credential, or verification of the supplied password
against the stored hash fails; otherwise the matched user. The `is_active`
flag is not consulted here. `verify` stands for `verify_password(plain,
hashed)`. -/
def authenticateUser (users : List User) (verify : String → String → Bool)
    (username password : String) : Option User :=
  match getUserByUsername users username with
  | none => none
  | some u =>
    match u.hashed_password with
    | none => none
    | some h =>
      if h = "" then none
      else if verify password h then some u else none

/-- Overwrite the `is_active` flag of a user, leaving every other column alone. -/
def setActive (b : Bool) (u : User) : User :=
  { u with is_active := b }

instance {e a : Type} [DecidableEq e] [DecidableEq a] : DecidableEq (Except e a) :=
  fun x y =>
    match x, y with
    | .ok v, .ok w =>
      if h : v = w then .isTrue (by rw [h]) else .isFalse (by simp [h])
    | .error v, .error w =>
      if h : v = w then .isTrue (by rw [h]) else .isFalse (by simp [h])
    | .ok _, .error _ => .isFalse (by simp)
    | .error _, .ok _ => .isFalse (by simp)

theorem foldl_add_amount (es : List Expense) (a : ℚ) :
    es.foldl (fun acc e => acc + e.amount) a
      = a + (es.map (fun e => e.amount)).sum := by
  induction es generalizing a with
  | nil => simp
  | cons e es ih => simp [List.foldl_cons, ih, add_assoc]

theorem totalExpense_eq_sum (es : List Expense) :
    totalExpense es = (es.map (fun e => e.amount)).sum := by
  simpa [totalExpense] using foldl_add_amount es 0

theorem get_emptyBreakdown (c : ExpenseCategory) :
    emptyBreakdown.get c = 0 := by
  cases c <;> rfl

theorem get_addToBreakdown (b : CategoryBreakdown) (e : Expense)
    (c : ExpenseCategory) :
    (addToBreakdown b e).get c
      = b.get c + (if e.category = c then e.amount else 0) := by
  cases hc : e.category <;> cases c <;>
    simp [addToBreakdown, CategoryBreakdown.get, hc]

theorem get_foldl_addToBreakdown (es : List Expense) (b : CategoryBreakdown)
    (c : ExpenseCategory) :
    (es.foldl addToBreakdown b).get c
      = b.get c
        + ((es.filter (fun e => decide (e.category = c))).map
            (fun e => e.amount)).sum := by
  induction es generalizing b with
  | nil => simp
  | cons e es ih =>
    simp only [List.foldl_cons, ih, get_addToBreakdown, List.filter_cons]
    by_cases h : e.category = c
    · simp [h]
      ring
    · simp [h]

theorem get_categoryTotals (es : List Expense) (c : ExpenseCategory) :
    (categoryTotals es).get c
      = ((es.filter (fun e => decide (e.category = c))).map
          (fun e => e.amount)).sum := by
  simpa [categoryTotals, get_emptyBreakdown] using
    get_foldl_addToBreakdown es emptyBreakdown c

theorem bSum_addToBreakdown (b : CategoryBreakdown) (e : Expense) :
    bSum (addToBreakdown b e) = bSum b + e.amount := by
  cases hc : e.category <;> simp [addToBreakdown, bSum, hc] <;> ring

theorem bSum_foldl_addToBreakdown (es : List Expense) (b : CategoryBreakdown) :
    bSum (es.foldl addToBreakdown b)
      = bSum b + (es.map (fun e => e.amount)).sum := by
  induction es generalizing b with
  | nil => simp
  | cons e es ih =>
    simp [List.foldl_cons, ih, bSum_addToBreakdown, add_assoc]

theorem bSum_categoryTotals (es : List Expense) :
    bSum (categoryTotals es) = (es.map (fun e => e.amount)).sum := by
  have h := bSum_foldl_addToBreakdown es emptyBreakdown
  simpa [categoryTotals, bSum, emptyBreakdown] using h

theorem CategoryBreakdown.ext_get (b1 b2 : CategoryBreakdown)
    (h : ∀ c, b1.get c = b2.get c) : b1 = b2 := by
  cases b1
  cases b2
  have h1 := h .FOOD
  have h2 := h .TRANSPORT
  have h3 := h .ENTERTAINMENT
  have h4 := h .UTILITIES
  have h5 := h .OTHER
  simp only [CategoryBreakdown.get] at h1 h2 h3 h4 h5
  simp [h1, h2, h3, h4, h5]

theorem categoryTotals_perm {es es2 : List Expense} (h : es.Perm es2) :
    categoryTotals es = categoryTotals es2 := by
  apply CategoryBreakdown.ext_get
  intro c
  rw [get_categoryTotals, get_categoryTotals]
  exact ((h.filter _).map _).sum_eq

theorem totalExpense_perm {es es2 : List Expense} (h : es.Perm es2) :
    totalExpense es = totalExpense es2 := by
  rw [totalExpense_eq_sum, totalExpense_eq_sum]
  exact (h.map _).sum_eq

theorem getUserExpenses_ok_sorted (db : DB) (uid : Nat)
    (f : Option ExpenseFilter) (es : List Expense)
    (h : getUserExpenses db uid f = .ok es) :
    List.Sorted createdDesc es := by
  rw [getUserExpenses] at h
  split at h
  · exact absurd h (by simp)
  · injection h with h2
    rw [← h2]
    exact List.sorted_insertionSort createdDesc _

theorem getUserByUsername_map_setActive (users : List User) (b : Bool)
    (un : String) :
    getUserByUsername (users.map (setActive b)) un
      = (getUserByUsername users un).map (setActive b) := by
  unfold getUserByUsername
  rw [List.find?_map]
  rfl

theorem roundHalfEven_intCast (n : ℤ) : roundHalfEven (n : ℚ) = n := by
  unfold roundHalfEven ratFloor
  norm_num

theorem round2_intCast (n : ℤ) : round2 (n : ℚ) = n := by
  unfold round2
  have h : ((n : ℚ)) * 100 = ((n * 100 : ℤ) : ℚ) := by push_cast; ring
  rw [h, roundHalfEven_intCast]
  push_cast
  ring

theorem round2_eval (q : ℚ) (n : ℤ) (h : q = (n : ℚ)) : round2 q = (n : ℚ) := by
  rw [h, round2_intCast]

/-- Test user with id 1 and salary 1000. -/
def userAlice : User :=
  { user_id := 1, username := "alice", email := none,
    hashed_password := some "hashed", salary := 1000, is_active := true,
    created_at := 0 }

/-- Test user with id 2 and salary 100. -/
def userBob : User :=
  { user_id := 2, username := "bob", email := none,
    hashed_password := some "hashed2", salary := 100, is_active := true,
    created_at := 0 }

/-- Expense of user 1 dated 2025-01-15 10:00:00. -/
def expJanC1 : Expense :=
  { expense_id := 1, user_id := 1, name := "jan", amount := 50,
    category := .FOOD, created_at := tsMicros 2025 1 15 10 0 0 0 }

/-- Expense of user 1 dated 2025-02-01 10:00:00. -/
def expFebC1 : Expense :=
  { expense_id := 2, user_id := 1, name := "feb", amount := 60,
    category := .FOOD, created_at := tsMicros 2025 2 1 10 0 0 0 }

/-- Expense of user 1 dated 2025-06-10 10:00:00. -/
def expJunC1 : Expense :=
  { expense_id := 3, user_id := 1, name := "jun", amount := 70,
    category := .FOOD, created_at := tsMicros 2025 6 10 10 0 0 0 }

/-- Database with the three dated expenses of user 1. -/
def dbC1 : DB :=
  { users := [userAlice], expenses := [expJanC1, expFebC1, expJunC1] }

/-- Expense of user 1: 300 on Food. -/
def expFood300 : Expense :=
  { expense_id := 10, user_id := 1, name := "groceries", amount := 300,
    category := .FOOD, created_at := 100 }

/-- Expense of user 1: 200 on Transport. -/
def expTransport200 : Expense :=
  { expense_id := 11, user_id := 1, name := "bus", amount := 200,
    category := .TRANSPORT, created_at := 200 }

/-- Expense of user 2: 300 on Food, more than the salary of user 2. -/
def expBobFood300 : Expense :=
  { expense_id := 12, user_id := 2, name := "dinner", amount := 300,
    category := .FOOD, created_at := 300 }

/-- Database for the budget-summary cases. -/
def dbBudget : DB :=
  { users := [userAlice, userBob],
    expenses := [expFood300, expTransport200, expBobFood300] }

/-- C1: the claim says a filter with both month and year supplied is accepted
and `get_user_expenses` then applies the month range. The code rejects that
very filter: pydantic validates fields in declaration order, so the year entry
of `info.data` is still `None` when `validate_month_requires_year` runs, and
`ExpenseFilter(month=1, year=2025)` fails validation with the very message
that says year is required. The month range itself, applied by the service to
the three dated expenses, does behave as claimed: month 1 of 2025 selects
exactly the 2025-01-15 expense and month 6 exactly the 2025-06-10 expense. -/
theorem C1_month_filter_rejected_despite_year :
    ExpenseFilter.validate { month := some 1, year := some 2025 }
        = .error "Year is required when filtering by month"
  ∧ getUserExpenses dbC1 1 (some { month := some 1, year := some 2025 })
        = .ok [expJanC1]
  ∧ getUserExpenses dbC1 1 (some { month := some 6, year := some 2025 })
        = .ok [expJunC1] :=
  ⟨rfl, by decide, by decide⟩

/-- C4: an expense filter with week set and year unset fails validation, and
likewise a filter with month set and year unset fails validation. -/
theorem C4_week_or_month_without_year_fails (f : ExpenseFilter) :
    (f.week.isSome = true → f.year = none → ∃ msg, f.validate = .error msg)
  ∧ (f.month.isSome = true → f.year = none → ∃ msg, f.validate = .error msg) := by
  constructor
  · intro hw _hy
    obtain ⟨w, hw2⟩ := Option.isSome_iff_exists.mp hw
    unfold ExpenseFilter.validate
    rw [hw2]
    unfold checkRange
    by_cases h : 1 ≤ w ∧ w ≤ 53
    · simp [h, validateWeekRequiresYear]
    · simp [h]
  · intro hm _hy
    obtain ⟨m, hm2⟩ := Option.isSome_iff_exists.mp hm
    unfold ExpenseFilter.validate
    rw [hm2]
    cases hwv : checkRange f.week 1 53 "week must be between 1 and 53" with
    | error e => simp
    | ok w =>
      cases w with
      | none =>
        simp only [validateWeekRequiresYear]
        unfold checkRange
        by_cases h : 1 ≤ m ∧ m ≤ 12
        · simp [h, validateMonthRequiresYear]
        · simp [h]
      | some w2 => simp [validateWeekRequiresYear]

/-- Witness for C4 at the concrete filters week=2 and month=3, both without a
year. -/
theorem C4_witness :
    (∃ msg, ExpenseFilter.validate { week := some 2 } = .error msg)
  ∧ (∃ msg, ExpenseFilter.validate { month := some 3 } = .error msg) :=
  ⟨(C4_week_or_month_without_year_fails { week := some 2 }).1 rfl rfl,
   (C4_week_or_month_without_year_fails { month := some 3 }).2 rfl rfl⟩

/-- C2: at most one range condition is applied, chosen day first, then week,
then month (the week and month branches also need a truthy year); the category
condition is applied independently of the chosen range condition and the
overall filter is their conjunction. -/
theorem C2_range_precedence_and_category (f : ExpenseFilter) (e : Expense) :
    (rangeConditions f).length ≤ 1
  ∧ matchesFilter f e
      = ((rangeConditions f).all (fun c => c e)
          && (categoryConditions f).all (fun c => c e))
  ∧ (∀ d, f.day = some d →
      (rangeConditions f).all (fun c => c e) = inDayRange d e.created_at)
  ∧ (∀ w y, f.day = none → natTruthy f.week = some w →
      natTruthy f.year = some y →
      (rangeConditions f).all (fun c => c e) = inWeekRange y w e.created_at)
  ∧ (∀ m y, f.day = none → natTruthy f.week = none →
      natTruthy f.month = some m → natTruthy f.year = some y →
      (rangeConditions f).all (fun c => c e) = inMonthRange y m e.created_at)
  ∧ (∀ c, f.category = some c →
      (categoryConditions f).all (fun cond => cond e) = decide (e.category = c))
  ∧ (f.category = none → (categoryConditions f).all (fun c => c e) = true) := by
  refine ⟨?_, ?_, ?_, ?_, ?_, ?_, ?_⟩
  · unfold rangeConditions
    split
    · simp
    · split
      · simp
      · split
        · simp
        · simp
  · simp [matchesFilter, filterConditions, List.all_append]
  · intro d hd
    simp [rangeConditions, hd]
  · intro w y hd hw hy
    simp [rangeConditions, hd, hw, hy]
  · intro m y hd hw hm hy
    simp [rangeConditions, hd, hw, hm, hy]
  · intro c hc
    simp [categoryConditions, hc]
  · intro hc
    simp [categoryConditions, hc]

/-- Witness for C2 at a filter with all selectors set: the day condition wins
and conjoins with the category condition. -/
theorem C2_witness :
    matchesFilter
        { day := some ⟨2025, 1, 15⟩, week := some 2, month := some 3,
          year := some 2025, category := some .FOOD } expJanC1
      = ((rangeConditions
            { day := some ⟨2025, 1, 15⟩, week := some 2, month := some 3,
              year := some 2025, category := some .FOOD }).all
            (fun c => c expJanC1)
          && (categoryConditions
              { day := some ⟨2025, 1, 15⟩, week := some 2, month := some 3,
                year := some 2025, category := some .FOOD }).all
              (fun c => c expJanC1))
  ∧ (rangeConditions
        { day := some ⟨2025, 1, 15⟩, week := some 2, month := some 3,
          year := some 2025, category := some .FOOD }).all
        (fun c => c expJanC1)
      = inDayRange ⟨2025, 1, 15⟩ expJanC1.created_at :=
  ⟨(C2_range_precedence_and_category
      { day := some ⟨2025, 1, 15⟩, week := some 2, month := some 3,
        year := some 2025, category := some .FOOD } expJanC1).2.1,
   (C2_range_precedence_and_category
      { day := some ⟨2025, 1, 15⟩, week := some 2, month := some 3,
        year := some 2025, category := some .FOOD } expJanC1).2.2.1
      ⟨2025, 1, 15⟩ rfl⟩

/-- C3: for any year and any week number between 1 and 53, the week filter of
the service accepts exactly the timestamps in the closed interval from
January 1st of the year plus (n-1)*7 days at 00:00:00 up to that start plus
6 days 23:59:59; and week 1 starts exactly at January 1st 00:00:00 of the
year, whatever its weekday. -/
theorem C3_week_range_fixed_origin (y w : Nat) (hy : 1 ≤ y) (h1 : 1 ≤ w)
    (h53 : w ≤ 53) (e : Expense) :
    (matchesFilter { week := some w, year := some y } e = true ↔
      tsMicros y 1 1 0 0 0 0 + (w - 1) * 7 * dayMicros ≤ e.created_at ∧
      e.created_at ≤ tsMicros y 1 1 0 0 0 0 + (w - 1) * 7 * dayMicros
        + (6 * 86400 + 23 * 3600 + 59 * 60 + 59) * 1000000)
  ∧ weekStartTs y 1 = tsMicros y 1 1 0 0 0 0 := by
  constructor
  · have hw0 : w ≠ 0 := by omega
    have hy0 : y ≠ 0 := by omega
    simp [matchesFilter, filterConditions, rangeConditions, categoryConditions,
      natTruthy, hw0, hy0, inWeekRange, weekStartTs, weekEndTs]
  · simp [weekStartTs]

/-- Witness for C3 at year 2025, week 2, on the 2025-01-15 expense (which lies
in days 8..14 from January 1st, hence inside week 2). -/
theorem C3_witness :
    (matchesFilter { week := some 2, year := some 2025 } expJanC1 = true ↔
      tsMicros 2025 1 1 0 0 0 0 + (2 - 1) * 7 * dayMicros
          ≤ expJanC1.created_at ∧
      expJanC1.created_at ≤ tsMicros 2025 1 1 0 0 0 0
        + (2 - 1) * 7 * dayMicros
        + (6 * 86400 + 23 * 3600 + 59 * 60 + 59) * 1000000)
  ∧ weekStartTs 2025 1 = tsMicros 2025 1 1 0 0 0 0 :=
  C3_week_range_fixed_origin 2025 2 (by decide) (by decide) (by decide) expJanC1

/-- C5: whenever the user exists and the filtered expense fetch succeeds, the
budget summary reports the 2-decimal rounding of the amount sum as
total_expense and the 2-decimal rounding of salary minus the (unrounded)
amount sum as remaining_amount; on salary 1000 with expenses 300 Food and
200 Transport this gives total 500, remaining 500 and breakdown
Food 300 / Transport 200 / others 0; and remaining_amount is not clamped:
user 2 with salary 100 and a 300 expense gets a negative remaining amount. -/
theorem C5_budget_summary_formulas :
    (∀ (db : DB) (uid : Nat) (f : Option ExpenseFilter) (user : User)
        (es : List Expense),
      verifyUserExists db uid = .ok user →
      getUserExpenses db uid f = .ok es →
      getBudgetSummary db uid f = .ok
        { user_id := uid, total_salary := user.salary,
          total_expense := round2 ((es.map (fun e => e.amount)).sum),
          remaining_amount :=
            round2 (user.salary - (es.map (fun e => e.amount)).sum),
          category_breakdown := categoryTotals es })
  ∧ getBudgetSummary dbBudget 1 none = .ok
      { user_id := 1, total_salary := 1000, total_expense := 500,
        remaining_amount := 500,
        category_breakdown :=
          { Food := 300, Transport := 200, Entertainment := 0,
            Utilities := 0, Other := 0 } }
  ∧ (∃ s, getBudgetSummary dbBudget 2 none = .ok s
        ∧ s.remaining_amount < 0) := by
  have huniv : ∀ (db : DB) (uid : Nat) (f : Option ExpenseFilter) (user : User)
      (es : List Expense),
      verifyUserExists db uid = .ok user →
      getUserExpenses db uid f = .ok es →
      getBudgetSummary db uid f = .ok
        { user_id := uid, total_salary := user.salary,
          total_expense := round2 ((es.map (fun e => e.amount)).sum),
          remaining_amount :=
            round2 (user.salary - (es.map (fun e => e.amount)).sum),
          category_breakdown := categoryTotals es } := by
    intro db uid f user es hver hexp
    unfold getBudgetSummary
    rw [hver, hexp]
    simp [budgetAggregate, totalExpense_eq_sum]
  refine ⟨huniv, ?_, ?_⟩
  · have h := huniv dbBudget 1 none userAlice [expTransport200, expFood300]
      rfl rfl
    rw [h]
    have hs : ([expTransport200, expFood300].map (fun e => e.amount)).sum
        = ((500 : ℤ) : ℚ) := by
      norm_num [expTransport200, expFood300]
    have hrem : userAlice.salary
        - ([expTransport200, expFood300].map (fun e => e.amount)).sum
        = ((500 : ℤ) : ℚ) := by
      rw [hs]
      norm_num [userAlice]
    have hb : categoryTotals [expTransport200, expFood300]
        = { Food := 300, Transport := 200, Entertainment := 0,
            Utilities := 0, Other := 0 } := by
      norm_num [categoryTotals, addToBreakdown, emptyBreakdown,
        expTransport200, expFood300]
    rw [round2_eval _ 500 hs, round2_eval _ 500 hrem, hb]
    push_cast
    rfl
  · refine ⟨budgetAggregate 2 userBob.salary
      (List.insertionSort createdDesc [expBobFood300]), rfl, ?_⟩
    have hrem : userBob.salary - totalExpense
        (List.insertionSort createdDesc [expBobFood300])
        = ((-200 : ℤ) : ℚ) := by
      norm_num [userBob, totalExpense, List.insertionSort, List.orderedInsert,
        expBobFood300]
    show round2 (userBob.salary - totalExpense
      (List.insertionSort createdDesc [expBobFood300])) < 0
    rw [round2_eval _ (-200) hrem]
    norm_num

/-- Witness for C5 at the concrete budget database, discharging the two
hypotheses of the universal part by evaluation. -/
theorem C5_witness :
    getBudgetSummary dbBudget 2 none = .ok
      { user_id := 2, total_salary := 100, total_expense := 300,
        remaining_amount := -200,
        category_breakdown :=
          { Food := 300, Transport := 0, Entertainment := 0,
            Utilities := 0, Other := 0 } } := by
  have h := C5_budget_summary_formulas.1 dbBudget 2 none userBob
    (List.insertionSort createdDesc [expBobFood300]) rfl rfl
  rw [h]
  have hs : ((List.insertionSort createdDesc [expBobFood300]).map
      (fun e => e.amount)).sum = ((300 : ℤ) : ℚ) := by
    norm_num [List.insertionSort, List.orderedInsert, expBobFood300]
  have hrem : userBob.salary - ((List.insertionSort createdDesc
      [expBobFood300]).map (fun e => e.amount)).sum = ((-200 : ℤ) : ℚ) := by
    rw [hs]
    norm_num [userBob]
  have hb : categoryTotals (List.insertionSort createdDesc [expBobFood300])
      = { Food := 300, Transport := 0, Entertainment := 0,
          Utilities := 0, Other := 0 } := by
    norm_num [List.insertionSort, List.orderedInsert, categoryTotals,
      addToBreakdown, emptyBreakdown, expBobFood300]
  rw [round2_eval _ 300 hs, round2_eval _ (-200) hrem, hb]
  push_cast
  rfl

/-- C6: the five category buckets are unrounded sums that add up exactly to
the unrounded total of all amounts; a category with no expense in the list
reports 0; and every produced summary has total_expense equal to the 2-decimal
rounding of the bucket sum (only the grand total is rounded). -/
theorem C6_breakdown_sums_to_total :
    (∀ es : List Expense,
      bSum (categoryTotals es) = (es.map (fun e => e.amount)).sum)
  ∧ (∀ (es : List Expense) (c : ExpenseCategory),
      (∀ e ∈ es, e.category ≠ c) → (categoryTotals es).get c = 0)
  ∧ (∀ (db : DB) (uid : Nat) (f : Option ExpenseFilter) (s : BudgetSummary),
      getBudgetSummary db uid f = .ok s →
      s.total_expense = round2 (bSum s.category_breakdown)) := by
  refine ⟨bSum_categoryTotals, ?_, ?_⟩
  · intro es c h
    rw [get_categoryTotals]
    have hnil : es.filter (fun e => decide (e.category = c)) = [] := by
      rw [List.filter_eq_nil_iff]
      intro e he
      simpa using h e he
    rw [hnil]
    simp
  · intro db uid f s h
    unfold getBudgetSummary at h
    cases hver : verifyUserExists db uid with
    | error e => rw [hver] at h; exact absurd h (by simp)
    | ok user =>
      rw [hver] at h
      cases hexp : getUserExpenses db uid f with
      | error e => rw [hexp] at h; exact absurd h (by simp)
      | ok es =>
        rw [hexp] at h
        injection h with h2
        rw [← h2]
        simp [budgetAggregate, bSum_categoryTotals, totalExpense_eq_sum]

/-- Witness for C6: the Transport bucket of a Food-only list is 0, and the
budget summary of user 1 satisfies the rounding relation, via the theorem
applied at concrete inputs. -/
theorem C6_witness :
    (categoryTotals [expFood300]).get .TRANSPORT = 0
  ∧ (budgetAggregate 1 userAlice.salary
        (List.insertionSort createdDesc [expFood300, expTransport200])).total_expense
      = round2 (bSum (budgetAggregate 1 userAlice.salary
          (List.insertionSort createdDesc
            [expFood300, expTransport200])).category_breakdown) :=
  ⟨C6_breakdown_sums_to_total.2.1 [expFood300] .TRANSPORT (by decide),
   C6_breakdown_sums_to_total.2.2 dbBudget 1 none
     (budgetAggregate 1 userAlice.salary
       (List.insertionSort createdDesc [expFood300, expTransport200]))
     rfl⟩

/-- C7: every expense list the service returns is sorted by created_at
descending, and the aggregation is invariant under every permutation of its
input list. -/
theorem C7_sorted_and_order_independent :
    (∀ (db : DB) (uid : Nat) (f : Option ExpenseFilter) (es : List Expense),
      getUserExpenses db uid f = .ok es → List.Sorted createdDesc es)
  ∧ (∀ (uid : Nat) (salary : ℚ) (es es2 : List Expense), es.Perm es2 →
      budgetAggregate uid salary es = budgetAggregate uid salary es2) := by
  constructor
  · exact getUserExpenses_ok_sorted
  · intro uid salary es es2 h
    unfold budgetAggregate
    rw [totalExpense_perm h, categoryTotals_perm h]

/-- Witness for C7: the unfiltered expense list of user 1 comes back sorted
descending, and swapping the two budget expenses leaves the aggregate
unchanged. -/
theorem C7_witness :
    List.Sorted createdDesc [expJunC1, expFebC1, expJanC1]
  ∧ budgetAggregate 1 1000 [expFood300, expTransport200]
      = budgetAggregate 1 1000 [expTransport200, expFood300] :=
  ⟨C7_sorted_and_order_independent.1 dbC1 1 none
      [expJunC1, expFebC1, expJanC1] (by decide),
   C7_sorted_and_order_independent.2 1 1000 _ _
      (List.Perm.swap expTransport200 expFood300 [])⟩

/-- C8: update_expense and delete_expense fail NotFound, leaving the database
unchanged, when no expense has the given id; when the expense exists and a
(truthy) acting-user id differing from the owner is supplied they fail
Forbidden, again leaving the database unchanged. -/
theorem C8_update_delete_not_found_forbidden (db : DB) (eid : Nat)
    (u : ExpenseUpdate) :
    (findExpense db eid = none →
      (∀ uidOpt, updateExpense db eid u uidOpt = (.error .notFound, db))
      ∧ (∀ uidOpt, deleteExpense db eid uidOpt = (.error .notFound, db)))
  ∧ (∀ e uid, findExpense db eid = some e → uid ≠ 0 → e.user_id ≠ uid →
      updateExpense db eid u (some uid) = (.error .forbidden, db)
      ∧ deleteExpense db eid (some uid) = (.error .forbidden, db)) := by
  constructor
  · intro h
    constructor
    · intro uidOpt
      simp [updateExpense, h]
    · intro uidOpt
      simp [deleteExpense, h]
  · intro e uid hfind hne hown
    have hmm : authMismatch e.user_id (some uid) = true := by
      simp [authMismatch, hne, hown]
    constructor
    · simp [updateExpense, hfind, hmm]
    · simp [deleteExpense, hfind, hmm]

/-- Witness for C8: a missing expense id yields NotFound with the database
untouched, and acting user 2 on the expense owned by user 1 yields Forbidden
with the database untouched. -/
theorem C8_witness :
    updateExpense dbC1 99 {} none = (.error .notFound, dbC1)
  ∧ deleteExpense dbC1 99 none = (.error .notFound, dbC1)
  ∧ updateExpense dbC1 1 {} (some 2) = (.error .forbidden, dbC1)
  ∧ deleteExpense dbC1 1 (some 2) = (.error .forbidden, dbC1) :=
  ⟨((C8_update_delete_not_found_forbidden dbC1 99 {}).1 rfl).1 none,
   ((C8_update_delete_not_found_forbidden dbC1 99 {}).1 rfl).2 none,
   ((C8_update_delete_not_found_forbidden dbC1 1 {}).2 expJanC1 2 rfl
      (by decide) (by decide)).1,
   ((C8_update_delete_not_found_forbidden dbC1 1 {}).2 expJanC1 2 rfl
      (by decide) (by decide)).2⟩

/-- C9: updating with the owning acting-user id succeeds; the updated row
keeps its expense_id, user_id and created_at, every absent update field keeps
its previous value, and every supplied field takes exactly the supplied
value. -/
theorem C9_owner_update_changes_only_supplied (db : DB) (eid : Nat)
    (u : ExpenseUpdate) (e : Expense) (hfind : findExpense db eid = some e) :
    ∃ e2 db2, updateExpense db eid u (some e.user_id) = (.ok e2, db2)
  ∧ e2.expense_id = e.expense_id
  ∧ e2.user_id = e.user_id
  ∧ e2.created_at = e.created_at
  ∧ (u.name = none → e2.name = e.name)
  ∧ (u.amount = none → e2.amount = e.amount)
  ∧ (u.category = none → e2.category = e.category)
  ∧ (∀ v, u.name = some v → e2.name = v)
  ∧ (∀ v, u.amount = some v → e2.amount = v)
  ∧ (∀ v, u.category = some v → e2.category = v) := by
  have hmm : authMismatch e.user_id (some e.user_id) = false := by
    simp [authMismatch]
  have heq : updateExpense db eid u (some e.user_id)
      = (.ok (applyUpdate e u),
         DB.mk db.users
           (replaceFirst (fun x => x.expense_id == eid) (applyUpdate e u)
             db.expenses)) := by
    simp [updateExpense, hfind, hmm]
  refine ⟨applyUpdate e u, _, heq, rfl, rfl, rfl, ?_, ?_, ?_, ?_, ?_, ?_⟩
  · intro h
    simp [applyUpdate, h]
  · intro h
    simp [applyUpdate, h]
  · intro h
    simp [applyUpdate, h]
  · intro v h
    simp [applyUpdate, h]
  · intro v h
    simp [applyUpdate, h]
  · intro v h
    simp [applyUpdate, h]

/-- Witness for C9: renaming the January expense as its owner succeeds and
preserves the unsupplied fields. -/
theorem C9_witness :
    ∃ e2 db2,
      updateExpense dbC1 1 { name := some "renamed" } (some expJanC1.user_id)
        = (.ok e2, db2)
    ∧ e2.expense_id = expJanC1.expense_id
    ∧ e2.user_id = expJanC1.user_id
    ∧ e2.created_at = expJanC1.created_at
    ∧ (({ name := some "renamed" } : ExpenseUpdate).name = none →
        e2.name = expJanC1.name)
    ∧ (({ name := some "renamed" } : ExpenseUpdate).amount = none →
        e2.amount = expJanC1.amount)
    ∧ (({ name := some "renamed" } : ExpenseUpdate).category = none →
        e2.category = expJanC1.category)
    ∧ (∀ v, ({ name := some "renamed" } : ExpenseUpdate).name = some v →
        e2.name = v)
    ∧ (∀ v, ({ name := some "renamed" } : ExpenseUpdate).amount = some v →
        e2.amount = v)
    ∧ (∀ v, ({ name := some "renamed" } : ExpenseUpdate).category = some v →
        e2.category = v) :=
  C9_owner_update_changes_only_supplied dbC1 1 { name := some "renamed" }
    expJanC1 rfl

/-- C10: authentication returns no user exactly when the username matches no
user, or the matched user has no stored credential (None or empty string, per
Python truthiness), or verification of the supplied password against the
stored hash fails; a successful authentication returns precisely the user
found by username; and the outcome is independent of the is_active flag. -/
theorem C10_authenticate_none_iff (users : List User)
    (verify : String → String → Bool) (un pw : String) :
    (authenticateUser users verify un pw = none ↔
      getUserByUsername users un = none
      ∨ (∃ u, getUserByUsername users un = some u
            ∧ hasStoredCredential u.hashed_password = false)
      ∨ (∃ u h, getUserByUsername users un = some u
            ∧ u.hashed_password = some h ∧ h ≠ "" ∧ verify pw h = false))
  ∧ (∀ u, authenticateUser users verify un pw = some u →
      getUserByUsername users un = some u)
  ∧ (∀ b, authenticateUser (users.map (setActive b)) verify un pw
      = (authenticateUser users verify un pw).map (setActive b)) := by
  refine ⟨?_, ?_, ?_⟩
  · cases hu : getUserByUsername users un with
    | none =>
      simp only [authenticateUser, hu]
      simp
    | some u =>
      cases hp : u.hashed_password with
      | none =>
        constructor
        · intro _
          exact Or.inr (Or.inl ⟨u, rfl, by simp [hasStoredCredential, hp]⟩)
        · intro _
          simp [authenticateUser, hu, hp]
      | some h =>
        by_cases hemp : h = ""
        · subst hemp
          constructor
          · intro _
            exact Or.inr (Or.inl ⟨u, rfl, by simp [hasStoredCredential, hp]⟩)
          · intro _
            simp [authenticateUser, hu, hp]
        · by_cases hv : verify pw h
          · simp only [authenticateUser, hu, hp, if_neg hemp, if_pos hv]
            constructor
            · intro habs
              exact absurd habs (by simp)
            · rintro (h1 | ⟨u2, hu2, hc⟩ | ⟨u2, h2, hu2, hp2, hne2, hv2⟩)
              · exact absurd h1 (by simp)
              · injection hu2 with he
                subst he
                rw [hp] at hc
                simp [hasStoredCredential, hemp] at hc
              · injection hu2 with he
                subst he
                rw [hp] at hp2
                injection hp2 with he2
                subst he2
                rw [hv] at hv2
                exact absurd hv2 (by simp)
          · constructor
            · intro _
              exact Or.inr (Or.inr ⟨u, h, rfl, hp, hemp, by simpa using hv⟩)
            · intro _
              simp [authenticateUser, hu, hp, hemp, hv]
  · intro u hau
    cases hu : getUserByUsername users un with
    | none =>
      simp only [authenticateUser, hu] at hau
      exact absurd hau (by simp)
    | some u2 =>
      simp only [authenticateUser, hu] at hau
      cases hp : u2.hashed_password with
      | none =>
        simp only [hp] at hau
        exact absurd hau (by simp)
      | some h =>
        simp only [hp] at hau
        by_cases hemp : h = ""
        · rw [if_pos hemp] at hau
          exact absurd hau (by simp)
        · rw [if_neg hemp] at hau
          by_cases hv : verify pw h
          · rw [if_pos hv] at hau
            exact hau
          · rw [if_neg hv] at hau
            exact absurd hau (by simp)
  · intro b
    unfold authenticateUser
    rw [getUserByUsername_map_setActive]
    cases hu : getUserByUsername users un with
    | none => simp
    | some u =>
      simp only [Option.map]
      have hpw : (setActive b u).hashed_password = u.hashed_password := rfl
      rw [hpw]
      cases hp : u.hashed_password with
      | none => simp [hp]
      | some h =>
        simp only [hp]
        by_cases hemp : h = ""
        · simp [hemp]
        · by_cases hv : verify pw h
          · simp [hemp, hv]
          · simp [hemp, hv]

/-- Test user for authentication with a stored non-empty credential. -/
def userCarol : User :=
  { user_id := 3, username := "carol", email := none,
    hashed_password := some "secret", salary := 0, is_active := true,
    created_at := 0 }

/-- Witness for C10: a wrong password for an existing user with a stored
credential authenticates to no user. -/
theorem C10_witness :
    authenticateUser [userCarol] (fun p h => p == h) "carol" "wrong" = none :=
  (C10_authenticate_none_iff [userCarol] (fun p h => p == h)
      "carol" "wrong").1.mpr
    (Or.inr (Or.inr ⟨userCarol, "secret", rfl, rfl, by decide, by decide⟩))

end ExpenseTracker
